import Mathlib

/-!
Shallow embedding of the ledger consistency core of the kharcha personal
finance application (Django).  Money is modelled as exact rationals (the
source uses `Decimal`); database rows become Lean structures, `pk` is an
`Option Nat` (`none` before the row was ever persisted, mirroring the
source's `if not self.pk` "first creation" branch), and the
`transaction.atomic` blocks of the source become `Except`-valued
functions: an `.error` result means the whole atomic unit rolled back and
nothing was persisted.  `runAtomic` realises that rollback: it returns the
new state on `.ok` and the untouched pre-state on `.error`.
-/

/-- Equality of fallible results is decidable when both components are. -/
instance {ε α : Type} [DecidableEq ε] [DecidableEq α] : DecidableEq (Except ε α) := fun x y =>
  match x, y with
  | .error e, .error f =>
    if h : e = f then isTrue (by rw [h])
    else isFalse (by intro hc; cases hc; exact h rfl)
  | .error _, .ok _ => isFalse (by intro hc; cases hc)
  | .ok _, .error _ => isFalse (by intro hc; cases hc)
  | .ok a, .ok b =>
    if h : a = b then isTrue (by rw [h])
    else isFalse (by intro hc; cases hc; exact h rfl)

namespace Kharcha

/-- Error taxonomy of the spec (section 7).  In the source every one of these
is a Django `ValidationError` / `Http404`; we separate them by the site that
raises them. -/
inductive LedgerError where
  | insufficientFunds
  | overPayment
  | sameAccount
  | forbidden
  | notFound
deriving DecidableEq, Repr

/-- `apps/accounts/models.py`, class `Account` (fields the core uses:
`user`, `balance`, `is_active`; `id` is the database primary key). -/
structure Account where
  id : Nat
  user : Nat
  balance : ℚ
  isActive : Bool
deriving DecidableEq, Repr

/-- `Account.deposit` (models.py lines 34-36): unconditionally adds the
amount to the balance and persists. -/
def Account.deposit (a : Account) (amount : ℚ) : Account :=
  { a with balance := a.balance + amount }

/-- `Account.withdraw` (models.py lines 38-46): raises `InsufficientFunds`
when `balance < amount`, otherwise subtracts and persists. -/
def Account.withdraw (a : Account) (amount : ℚ) : Except LedgerError Account :=
  if a.balance < amount then
    .error .insufficientFunds
  else
    .ok { a with balance := a.balance - amount }

/-- Semantics of `with transaction.atomic():` around a fallible unit: on
success the new state is committed, on any error the pre-state is kept
unchanged (full rollback). -/
def runAtomic {σ : Type} (s : σ) (r : Except LedgerError σ) : σ :=
  match r with
  | .ok s' => s'
  | .error _ => s

/-- The balance-mutating operations the no-negative-balance property (spec
section 8) ranges over: a direct withdraw, an expense creation
(`Expense.save` withdraws the amount, expenses/models.py line 45), and a
debt payment (`DebtPayment.save` withdraws on a payable debt and deposits
on a receivable one, accounts/models.py lines 146-151). -/
inductive AccountOp where
  | withdrawOp (amount : ℚ)
  | expenseCreate (amount : ℚ)
  | debtPaymentPayable (amount : ℚ)
  | debtPaymentReceivable (amount : ℚ)
deriving DecidableEq, Repr

/-- The monetary amount carried by an operation. -/
def AccountOp.amount : AccountOp → ℚ
  | .withdrawOp amt => amt
  | .expenseCreate amt => amt
  | .debtPaymentPayable amt => amt
  | .debtPaymentReceivable amt => amt

/-- Effect of one operation on the touched account: the three withdrawing
operations go through `Account.withdraw` inside an atomic block (a failed
withdraw rolls back to the old balance), a receivable debt payment goes
through `Account.deposit`. -/
def applyOp (a : Account) (op : AccountOp) : Account :=
  match op with
  | .withdrawOp amt => runAtomic a (a.withdraw amt)
  | .expenseCreate amt => runAtomic a (a.withdraw amt)
  | .debtPaymentPayable amt => runAtomic a (a.withdraw amt)
  | .debtPaymentReceivable amt => a.deposit amt

/-- `apps/accounts/models.py`, class `Transfer` (row fields). -/
structure Transfer where
  user : Nat
  fromAccount : Nat
  toAccount : Nat
  amount : ℚ
deriving DecidableEq, Repr

/-- `Transfer.save` (models.py lines 91-96), first-creation path: inside one
atomic block, withdraw from the source account then deposit to the
destination; a failed withdraw aborts before the deposit and before the row
write. -/
def Transfer.save (t : Transfer) (fromAcc toAcc : Account) :
    Except LedgerError (Account × Account) :=
  match fromAcc.withdraw t.amount with
  | .error e => .error e
  | .ok fromAcc' => .ok (fromAcc', toAcc.deposit t.amount)

/-- The slice of the persistent store the transfer views touch: the account
rows and the persisted `Transfer` rows. -/
structure Store where
  accounts : List Account
  transfers : List Transfer
deriving DecidableEq, Repr

/-- Django `get_object_or_404(Account, id=i, user=u)` as used by
`accounts_dashboard`: the account row with primary key `i` belonging to
user `u`, if any. -/
def getObjectOr404 (accs : List Account) (i u : Nat) : Option Account :=
  accs.find? (fun a => a.id = i && a.user = u)

/-- Foreign-key dereference by primary key alone (no owner filter), as
happens when a row is created from a raw `..._id` value. -/
def getAccount (accs : List Account) (i : Nat) : Option Account :=
  accs.find? (fun a => a.id = i)

/-- Persist an updated account row back into the table (replace the row
with the same primary key). -/
def updateAccount (accs : List Account) (a : Account) : List Account :=
  accs.map (fun b => if b.id = a.id then a else b)

/-- The `transfer_money` action of `accounts_dashboard`
(accounts/views.py lines 35-55): fetch both accounts scoped to the
requesting user via `get_object_or_404`, reject `from_acc == to_acc`
(instances compare equal exactly when their pks agree), otherwise create
the `Transfer` row, whose `save` withdraws then deposits inside the
surrounding atomic block. -/
def transfer_money (st : Store) (user fromId toId : Nat) (amt : ℚ) :
    Except LedgerError Store :=
  match getObjectOr404 st.accounts fromId user, getObjectOr404 st.accounts toId user with
  | some fromAcc, some toAcc =>
    if fromAcc.id = toAcc.id then .error .sameAccount
    else
      match Transfer.save ⟨user, fromAcc.id, toAcc.id, amt⟩ fromAcc toAcc with
      | .error e => .error e
      | .ok (fromAcc', toAcc') =>
        .ok ⟨updateAccount (updateAccount st.accounts fromAcc') toAcc',
             st.transfers ++ [⟨user, fromAcc.id, toAcc.id, amt⟩]⟩
  | _, _ => .error .notFound

/-- `process_transfer` (accounts/views.py lines 156-175): compares the raw
posted ids, then creates the `Transfer` row directly from
`from_account_id`/`to_account_id`.  Faithful to the source, it performs NO
ownership check on either account. -/
def process_transfer (st : Store) (user fromId toId : Nat) (amt : ℚ) :
    Except LedgerError Store :=
  if fromId = toId then .error .sameAccount
  else
    match getAccount st.accounts fromId, getAccount st.accounts toId with
    | some fromAcc, some toAcc =>
      match Transfer.save ⟨user, fromId, toId, amt⟩ fromAcc toAcc with
      | .error e => .error e
      | .ok (fromAcc', toAcc') =>
        .ok ⟨updateAccount (updateAccount st.accounts fromAcc') toAcc',
             st.transfers ++ [⟨user, fromId, toId, amt⟩]⟩
    | _, _ => .error .notFound

/-- Direction of a debt (`Debt.DEBT_TYPE`): payable = the owner owes the
contact, receivable = the contact owes the owner. -/
inductive DebtType where
  | payable
  | receivable
deriving DecidableEq, Repr

/-- `apps/accounts/models.py`, class `Debt`. -/
structure Debt where
  pk : Option Nat
  user : Nat
  contact : Nat
  initialAmount : ℚ
  remainingAmount : ℚ
  debtType : DebtType
  account : Nat
  isSettled : Bool
deriving DecidableEq, Repr

/-- `Debt.save` (models.py lines 115-125), inside `transaction.atomic`: on
first creation set `remaining_amount := initial_amount`, deposit the
initial amount for a payable debt and withdraw it for a receivable one (a
failed withdraw rolls the whole unit back, so no row is written); on a
subsequent save no balance mutation happens. -/
def Debt.save (d : Debt) (acc : Account) (newPk : Nat) :
    Except LedgerError (Debt × Account) :=
  match d.pk with
  | none =>
    match ((match d.debtType with
            | .payable => .ok (acc.deposit d.initialAmount)
            | .receivable => acc.withdraw d.initialAmount) :
           Except LedgerError Account) with
    | .error e => .error e
    | .ok acc' =>
      .ok ({ d with remainingAmount := d.initialAmount, pk := some newPk }, acc')
  | some _ => .ok (d, acc)

/-- `apps/accounts/models.py`, class `DebtPayment` (row fields the core
uses: the settling account and the amount paid). -/
structure DebtPayment where
  account : Nat
  amountPaid : ℚ
deriving DecidableEq, Repr

/-- `DebtPayment.save` (models.py lines 134-153), inside
`transaction.atomic`: reject `amount_paid > debt.remaining_amount` as an
overpayment before touching anything; otherwise decrement the remaining
amount, set `is_settled` when it reaches exactly zero, and mutate the
account — withdraw for a payable debt (may fail, rolling everything back),
deposit for a receivable one. -/
def DebtPayment.save (p : DebtPayment) (debt : Debt) (acc : Account) :
    Except LedgerError (Debt × Account) :=
  if debt.remainingAmount < p.amountPaid then
    .error .overPayment
  else
    let debt' := { debt with
      remainingAmount := debt.remainingAmount - p.amountPaid,
      isSettled := if debt.remainingAmount - p.amountPaid = 0 then true
                   else debt.isSettled }
    match ((match debt'.debtType with
            | .payable => acc.withdraw p.amountPaid
            | .receivable => .ok (acc.deposit p.amountPaid)) :
           Except LedgerError Account) with
    | .error e => .error e
    | .ok acc' => .ok (debt', acc')

/-- The state a sequence of payments against one debt evolves: the debt
row, its settling account row, and the persisted `DebtPayment` rows. -/
structure DebtState where
  debt : Debt
  account : Account
  payments : List DebtPayment
deriving DecidableEq, Repr

/-- The `make_payment` action of `debt_dashboard` (accounts/views.py lines
208-217): create a `DebtPayment`; on success the row is persisted, on any
error the atomic block leaves debt, account and payment rows unchanged. -/
def recordPayment (s : DebtState) (amountPaid : ℚ) : Except LedgerError DebtState :=
  match DebtPayment.save ⟨s.account.id, amountPaid⟩ s.debt s.account with
  | .error e => .error e
  | .ok (debt', acc') => .ok ⟨debt', acc', s.payments ++ [⟨s.account.id, amountPaid⟩]⟩

/-- A sequence of payment requests, each run in its own atomic block
(failed ones roll back and the sequence continues). -/
def applyPayments (s : DebtState) (ps : List ℚ) : DebtState :=
  ps.foldl (fun st p => runAtomic st (recordPayment st p)) s

/-- `apps/expenses/models.py`, class `Expense` (fields the core uses;
title, category, dates, recurrence and notes are descriptive metadata). -/
structure Expense where
  pk : Option Nat
  user : Nat
  account : Nat
  amount : ℚ
  isActive : Bool
deriving DecidableEq, Repr

/-- `Expense.save` (expenses/models.py lines 42-46), inside
`transaction.atomic`: only on first creation (`self.pk` unset) withdraw
the amount from the account, then persist the row (it gets a fresh pk);
on a subsequent save of the same row, no balance mutation at all. -/
def Expense.save (e : Expense) (acc : Account) (newPk : Nat) :
    Except LedgerError (Expense × Account) :=
  match e.pk with
  | none =>
    match acc.withdraw e.amount with
    | .error err => .error err
    | .ok acc' => .ok ({ e with pk := some newPk }, acc')
  | some _ => .ok (e, acc)

/-- `apps/income/models.py`, class `Income` (fields the core uses). -/
structure Income where
  pk : Option Nat
  user : Nat
  account : Nat
  amount : ℚ
  isActive : Bool
deriving DecidableEq, Repr

/-- `Income.save` (income/models.py lines 48-51): only on first creation
deposit the amount into the account (a deposit cannot fail), then persist
the row. -/
def Income.save (inc : Income) (acc : Account) (newPk : Nat) : Income × Account :=
  match inc.pk with
  | none => ({ inc with pk := some newPk }, acc.deposit inc.amount)
  | some _ => (inc, acc)

/-- `delete_expense` (expenses/views.py lines 207-218), POST branch inside
`transaction.atomic`: deposit the expense amount back into its account,
set `is_active := false`, and save the row — the row keeps its pk, it is
not deleted.  Faithful to the source, there is no check that the expense
was still active. -/
def delete_expense (e : Expense) (acc : Account) : Except LedgerError (Expense × Account) :=
  Expense.save { e with isActive := false } (acc.deposit e.amount) 0

/-- `edit_expense` (expenses/views.py lines 155-188), POST branch inside
`transaction.atomic`: adjust the account by the difference between the new
and the old amount (`new > old` withdraws `new - old`, which may fail;
`new < old` deposits `old - new`; equal amounts touch nothing), then store
the new amount and save the row — which, already having a pk, performs no
further balance mutation. -/
def edit_expense (e : Expense) (acc : Account) (newAmount : ℚ) :
    Except LedgerError (Expense × Account) :=
  match ((if e.amount < newAmount then acc.withdraw (newAmount - e.amount)
          else if newAmount < e.amount then .ok (acc.deposit (e.amount - newAmount))
          else .ok acc) : Except LedgerError Account) with
  | .error err => .error err
  | .ok acc' => Expense.save { e with amount := newAmount } acc' 0

end Kharcha

namespace Kharcha

/-- A withdraw run inside an atomic block never leaves a negative balance
when the balance started non-negative: on failure the old balance is kept,
on success `amount ≤ balance` held. -/
theorem runAtomic_withdraw_nonneg (a : Account) (amt : ℚ) (h0 : 0 ≤ a.balance) :
    0 ≤ (runAtomic a (a.withdraw amt)).balance := by
  by_cases h : a.balance < amt
  · simpa [Account.withdraw, h, runAtomic] using h0
  · have h' : amt ≤ a.balance := not_lt.mp h
    simp only [Account.withdraw, if_neg h, runAtomic]
    linarith

/-- Claim C1: starting from a non-negative balance, no sequence of
withdraw / expense-creation / debt-payment operations (all with
non-negative amounts, the caller contract of spec section 4.1) ever drives
the balance below zero; moreover a single `withdraw` with
`balance < amount` fails with `InsufficientFunds` leaving the balance
unchanged, and otherwise subtracts the amount. -/
theorem account_balance_never_negative (a : Account) (ops : List AccountOp)
    (h0 : 0 ≤ a.balance) (hops : ∀ op ∈ ops, 0 ≤ op.amount) :
    0 ≤ (ops.foldl applyOp a).balance ∧
    (∀ amt : ℚ, a.balance < amt →
      a.withdraw amt = .error .insufficientFunds ∧
      (runAtomic a (a.withdraw amt)).balance = a.balance) ∧
    (∀ amt : ℚ, amt ≤ a.balance →
      a.withdraw amt = .ok { a with balance := a.balance - amt }) := by
  refine ⟨?_, ?_, ?_⟩
  · induction ops generalizing a with
    | nil => exact h0
    | cons op rest ih =>
      have hop : 0 ≤ op.amount := hops op (List.mem_cons_self op rest)
      have hrest : ∀ o ∈ rest, 0 ≤ o.amount := fun o ho =>
        hops o (List.mem_cons_of_mem op ho)
      refine ih _ ?_ hrest
      cases op with
      | withdrawOp amt => exact runAtomic_withdraw_nonneg a amt h0
      | expenseCreate amt => exact runAtomic_withdraw_nonneg a amt h0
      | debtPaymentPayable amt => exact runAtomic_withdraw_nonneg a amt h0
      | debtPaymentReceivable amt =>
        simp only [applyOp, Account.deposit, AccountOp.amount] at hop ⊢
        positivity
  · intro amt hlt
    constructor
    · simp [Account.withdraw, hlt]
    · simp [Account.withdraw, hlt, runAtomic]
  · intro amt hle
    simp [Account.withdraw, not_lt.mpr hle]

/-- Witness for C1 at a concrete account and operation list. -/
theorem account_balance_never_negative_witness :
    (0 : ℚ) ≤ (Account.mk 1 1 100 true).balance ∧
    (∀ op ∈ [AccountOp.expenseCreate 30, AccountOp.withdrawOp 200,
             AccountOp.debtPaymentReceivable 5, AccountOp.debtPaymentPayable 75],
       0 ≤ op.amount) ∧
    (0 ≤ (([AccountOp.expenseCreate 30, AccountOp.withdrawOp 200,
            AccountOp.debtPaymentReceivable 5, AccountOp.debtPaymentPayable 75].foldl
            applyOp (Account.mk 1 1 100 true)).balance) ∧
     (∀ amt : ℚ, (Account.mk 1 1 100 true).balance < amt →
       (Account.mk 1 1 100 true).withdraw amt = .error .insufficientFunds ∧
       (runAtomic (Account.mk 1 1 100 true)
         ((Account.mk 1 1 100 true).withdraw amt)).balance =
         (Account.mk 1 1 100 true).balance) ∧
     (∀ amt : ℚ, amt ≤ (Account.mk 1 1 100 true).balance →
       (Account.mk 1 1 100 true).withdraw amt =
         .ok { Account.mk 1 1 100 true with
               balance := (Account.mk 1 1 100 true).balance - amt })) :=
  ⟨by norm_num [Account.balance], by decide,
   account_balance_never_negative _ _ (by norm_num [Account.balance]) (by decide)⟩

/-- Claim C2: a successful transfer between two distinct accounts conserves
the sum of the two balances (the amount is withdrawn from the source and
deposited to the destination). -/
theorem transfer_conserves_sum (t : Transfer) (fromAcc toAcc fromAcc' toAcc' : Account)
    (hne : fromAcc.id ≠ toAcc.id)
    (h : Transfer.save t fromAcc toAcc = .ok (fromAcc', toAcc')) :
    fromAcc'.balance + toAcc'.balance = fromAcc.balance + toAcc.balance := by
  by_cases hw : fromAcc.balance < t.amount
  · simp [Transfer.save, Account.withdraw, hw] at h
  · simp only [Transfer.save, Account.withdraw, hw, if_neg, if_false,
      Except.ok.injEq, Prod.mk.injEq] at h
    obtain ⟨h1, h2⟩ := h
    subst h1
    subst h2
    show fromAcc.balance - t.amount + (toAcc.balance + t.amount) =
      fromAcc.balance + toAcc.balance
    ring

/-- Witness for C2: transferring 30 from a balance of 100 to a balance of
50 yields 70 and 80, whose sum is again 150. -/
theorem transfer_conserves_sum_witness :
    ((Account.mk 1 1 100 true).id ≠ (Account.mk 2 1 50 true).id ∧
     Transfer.save (Transfer.mk 1 1 2 30) (Account.mk 1 1 100 true) (Account.mk 2 1 50 true) =
       .ok (Account.mk 1 1 70 true, Account.mk 2 1 80 true)) ∧
    (Account.mk 1 1 70 true).balance + (Account.mk 2 1 80 true).balance =
      (Account.mk 1 1 100 true).balance + (Account.mk 2 1 50 true).balance :=
  ⟨⟨by decide, by norm_num [Transfer.save, Account.withdraw, Account.deposit]⟩,
   transfer_conserves_sum (Transfer.mk 1 1 2 30) (Account.mk 1 1 100 true)
     (Account.mk 2 1 50 true) (Account.mk 1 1 70 true) (Account.mk 2 1 80 true)
     (by decide) (by norm_num [Transfer.save, Account.withdraw, Account.deposit])⟩

/-- Claim C3: a payment with `amount_paid > debt.remaining_amount` fails
with `OverPayment` (the check reads the current remaining amount), and the
rolled-back atomic unit leaves the debt, the account balance and the
persisted payment rows all exactly as they were. -/
theorem overpayment_rejected (s : DebtState) (amountPaid : ℚ)
    (h : s.debt.remainingAmount < amountPaid) :
    recordPayment s amountPaid = .error .overPayment ∧
    runAtomic s (recordPayment s amountPaid) = s := by
  have hsave : DebtPayment.save ⟨s.account.id, amountPaid⟩ s.debt s.account =
      .error .overPayment := by
    simp [DebtPayment.save, h]
  exact ⟨by simp [recordPayment, hsave], by simp [recordPayment, hsave, runAtomic]⟩

/-- Witness for C3: paying 20 against a remaining debt of 10 is rejected
and changes nothing. -/
theorem overpayment_rejected_witness :
    (DebtState.mk (Debt.mk (some 1) 1 1 50 10 .payable 1 false)
        (Account.mk 1 1 100 true) []).debt.remainingAmount < 20 ∧
    (recordPayment (DebtState.mk (Debt.mk (some 1) 1 1 50 10 .payable 1 false)
        (Account.mk 1 1 100 true) []) 20 = .error .overPayment ∧
     runAtomic (DebtState.mk (Debt.mk (some 1) 1 1 50 10 .payable 1 false)
        (Account.mk 1 1 100 true) [])
       (recordPayment (DebtState.mk (Debt.mk (some 1) 1 1 50 10 .payable 1 false)
          (Account.mk 1 1 100 true) []) 20) =
       DebtState.mk (Debt.mk (some 1) 1 1 50 10 .payable 1 false)
         (Account.mk 1 1 100 true) []) :=
  ⟨by decide, overpayment_rejected _ 20 (by decide)⟩

/-- One payment request never increases the remaining amount of the debt
(a rejected or rolled-back request leaves it unchanged, an applied one
subtracts the non-negative amount paid). -/
theorem recordPayment_remaining_le (s : DebtState) (p : ℚ) (hp : 0 ≤ p) :
    (runAtomic s (recordPayment s p)).debt.remainingAmount ≤ s.debt.remainingAmount := by
  by_cases hover : s.debt.remainingAmount < p
  · simp [recordPayment, DebtPayment.save, hover, runAtomic]
  · cases hdt : s.debt.debtType with
    | payable =>
      by_cases hw : s.account.balance < p
      · simp [recordPayment, DebtPayment.save, hover, hdt, Account.withdraw, hw, runAtomic]
      · simp [recordPayment, DebtPayment.save, hover, hdt, Account.withdraw, hw, runAtomic]
        linarith
    | receivable =>
      simp [recordPayment, DebtPayment.save, hover, hdt, Account.deposit, runAtomic]
      linarith

/-- One positive payment request preserves the invariant
`is_settled = true ↔ remaining_amount = 0`. -/
theorem recordPayment_settled_iff (s : DebtState) (p : ℚ) (hp : 0 < p)
    (hinv : s.debt.isSettled = true ↔ s.debt.remainingAmount = 0) :
    ((runAtomic s (recordPayment s p)).debt.isSettled = true ↔
      (runAtomic s (recordPayment s p)).debt.remainingAmount = 0) := by
  by_cases hover : s.debt.remainingAmount < p
  · simpa [recordPayment, DebtPayment.save, hover, runAtomic] using hinv
  · have hpos : 0 < s.debt.remainingAmount := lt_of_lt_of_le hp (not_lt.mp hover)
    have hsf : s.debt.isSettled = false := by
      cases hb : s.debt.isSettled with
      | false => rfl
      | true => exact absurd (hinv.mp hb) hpos.ne'
    cases hdt : s.debt.debtType with
    | payable =>
      by_cases hw : s.account.balance < p
      · simpa [recordPayment, DebtPayment.save, hover, hdt, Account.withdraw, hw,
          runAtomic] using hinv
      · simp only [recordPayment, DebtPayment.save, hover, hdt, Account.withdraw, hw,
          if_neg, if_false, runAtomic]
        by_cases hz : s.debt.remainingAmount - p = 0
        · simp [hz]
        · simp [hz, hsf]
    | receivable =>
      simp only [recordPayment, DebtPayment.save, hover, hdt, Account.deposit,
        if_neg, if_false, runAtomic]
      by_cases hz : s.debt.remainingAmount - p = 0
      · simp [hz]
      · simp [hz, hsf]

/-- Once the remaining amount is zero, any positive payment request is
rejected as an overpayment, so the state is frozen. -/
theorem recordPayment_frozen (s : DebtState) (p : ℚ) (hp : 0 < p)
    (h0 : s.debt.remainingAmount = 0) :
    runAtomic s (recordPayment s p) = s := by
  have hover : s.debt.remainingAmount < p := by rw [h0]; exact hp
  simp [recordPayment, DebtPayment.save, hover, runAtomic]

/-- Fold form of the three debt-payment facts, proved by induction on the
sequence of payment requests. -/
theorem applyPayments_props (ps : List ℚ) : ∀ s : DebtState,
    (∀ p ∈ ps, 0 < p) →
    (s.debt.isSettled = true ↔ s.debt.remainingAmount = 0) →
    (applyPayments s ps).debt.remainingAmount ≤ s.debt.remainingAmount ∧
    ((applyPayments s ps).debt.isSettled = true ↔
      (applyPayments s ps).debt.remainingAmount = 0) ∧
    (s.debt.remainingAmount = 0 → applyPayments s ps = s) := by
  induction ps with
  | nil => exact fun s _ hinv => ⟨le_refl _, hinv, fun _ => rfl⟩
  | cons p rest ih =>
    intro s hpos hinv
    have hp : 0 < p := hpos p (List.mem_cons_self p rest)
    have hrest : ∀ q ∈ rest, 0 < q := fun q hq => hpos q (List.mem_cons_of_mem p hq)
    have hstep_inv := recordPayment_settled_iff s p hp hinv
    have hstep_le := recordPayment_remaining_le s p (le_of_lt hp)
    have happly : applyPayments s (p :: rest) =
        applyPayments (runAtomic s (recordPayment s p)) rest := rfl
    obtain ⟨ih1, ih2, ih3⟩ := ih (runAtomic s (recordPayment s p)) hrest hstep_inv
    refine ⟨?_, ?_, ?_⟩
    · rw [happly]; exact le_trans ih1 hstep_le
    · rw [happly]; exact ih2
    · intro h0
      have hfrozen := recordPayment_frozen s p hp h0
      rw [happly, hfrozen]
      rw [hfrozen] at ih3
      exact ih3 h0

/-- Claim C4: over any sequence of positive payment requests against a debt
satisfying `is_settled ↔ remaining = 0`, the remaining amount is
non-increasing, the invariant `is_settled = true ↔ remaining = 0` holds
after every payment, and once the debt is settled (remaining = 0) no
payment moves it back to an open or partial state (the state is unchanged
by every further request). -/
theorem debt_monotonic (s : DebtState) (ps : List ℚ)
    (hpos : ∀ p ∈ ps, 0 < p)
    (hinv : s.debt.isSettled = true ↔ s.debt.remainingAmount = 0) :
    (applyPayments s ps).debt.remainingAmount ≤ s.debt.remainingAmount ∧
    ((applyPayments s ps).debt.isSettled = true ↔
      (applyPayments s ps).debt.remainingAmount = 0) ∧
    (s.debt.remainingAmount = 0 → applyPayments s ps = s) :=
  applyPayments_props ps s hpos hinv

/-- Witness for C4 on the spec's scenario 3: a payable debt of 1000 paid
with 400 then 600 ends settled with remaining 0, and the three properties
hold for that run. -/
theorem debt_monotonic_witness :
    ((∀ p ∈ [(400 : ℚ), 600], 0 < p) ∧
     ((DebtState.mk (Debt.mk (some 1) 1 1 1000 1000 .payable 1 false)
        (Account.mk 1 1 1000 true) []).debt.isSettled = true ↔
      (DebtState.mk (Debt.mk (some 1) 1 1 1000 1000 .payable 1 false)
        (Account.mk 1 1 1000 true) []).debt.remainingAmount = 0)) ∧
    ((applyPayments (DebtState.mk (Debt.mk (some 1) 1 1 1000 1000 .payable 1 false)
        (Account.mk 1 1 1000 true) []) [400, 600]).debt.remainingAmount ≤
      (DebtState.mk (Debt.mk (some 1) 1 1 1000 1000 .payable 1 false)
        (Account.mk 1 1 1000 true) []).debt.remainingAmount ∧
     ((applyPayments (DebtState.mk (Debt.mk (some 1) 1 1 1000 1000 .payable 1 false)
        (Account.mk 1 1 1000 true) []) [400, 600]).debt.isSettled = true ↔
      (applyPayments (DebtState.mk (Debt.mk (some 1) 1 1 1000 1000 .payable 1 false)
        (Account.mk 1 1 1000 true) []) [400, 600]).debt.remainingAmount = 0) ∧
     ((DebtState.mk (Debt.mk (some 1) 1 1 1000 1000 .payable 1 false)
        (Account.mk 1 1 1000 true) []).debt.remainingAmount = 0 →
      applyPayments (DebtState.mk (Debt.mk (some 1) 1 1 1000 1000 .payable 1 false)
        (Account.mk 1 1 1000 true) []) [400, 600] =
        DebtState.mk (Debt.mk (some 1) 1 1 1000 1000 .payable 1 false)
          (Account.mk 1 1 1000 true) [])) :=
  ⟨⟨by decide, by decide⟩, debt_monotonic _ _ (by decide) (by decide)⟩

/-- Claim C5: creating a ledger entry performs exactly one balance mutation
(withdraw of the amount for an expense, deposit for an income), a
subsequent save of the same persisted row performs none, and deactivating
an expense performs exactly one inverse mutation (deposits the amount
back) while marking the row inactive and keeping it (the pk survives, the
row is not deleted). -/
theorem entry_single_mutation (e : Expense) (inc : Income) (acc : Account) (k newPk : Nat) :
    (e.pk = none → e.amount ≤ acc.balance →
      Expense.save e acc newPk =
        .ok ({ e with pk := some newPk },
             { acc with balance := acc.balance - e.amount })) ∧
    (inc.pk = none →
      Income.save inc acc newPk =
        ({ inc with pk := some newPk },
         { acc with balance := acc.balance + inc.amount })) ∧
    (e.pk = some k → Expense.save e acc newPk = .ok (e, acc)) ∧
    (inc.pk = some k → Income.save inc acc newPk = (inc, acc)) ∧
    (e.pk = some k →
      delete_expense e acc =
        .ok ({ e with isActive := false },
             { acc with balance := acc.balance + e.amount }) ∧
      ({ e with isActive := false } : Expense).pk = some k) := by
  refine ⟨?_, ?_, ?_, ?_, ?_⟩
  · intro hpk hle
    simp [Expense.save, hpk, Account.withdraw, not_lt.mpr hle]
  · intro hpk
    simp [Income.save, hpk, Account.deposit]
  · intro hpk
    simp [Expense.save, hpk]
  · intro hpk
    simp [Income.save, hpk]
  · intro hpk
    exact ⟨by simp [delete_expense, Expense.save, hpk, Account.deposit], by simp [hpk]⟩

/-- Witness for C5 on the spec's scenario 1: an expense of 200 on a balance
of 1000 leaves 800 at creation, a re-save of the persisted row changes
nothing, and deactivation refunds the 200. -/
theorem entry_single_mutation_witness :
    ((Expense.mk none 1 1 200 true).pk = none ∧
     (Expense.mk none 1 1 200 true).amount ≤ (Account.mk 1 1 1000 true).balance ∧
     Expense.save (Expense.mk none 1 1 200 true) (Account.mk 1 1 1000 true) 3 =
       .ok (Expense.mk (some 3) 1 1 200 true, Account.mk 1 1 ((1000 : ℚ) - 200) true)) ∧
    ((Income.mk none 1 1 50 true).pk = none ∧
     Income.save (Income.mk none 1 1 50 true) (Account.mk 1 1 800 true) 4 =
       (Income.mk (some 4) 1 1 50 true, Account.mk 1 1 ((800 : ℚ) + 50) true)) ∧
    ((Expense.mk (some 3) 1 1 200 true).pk = some 3 ∧
     Expense.save (Expense.mk (some 3) 1 1 200 true) (Account.mk 1 1 800 true) 9 =
       .ok (Expense.mk (some 3) 1 1 200 true, Account.mk 1 1 800 true) ∧
     delete_expense (Expense.mk (some 3) 1 1 200 true) (Account.mk 1 1 800 true) =
       .ok (Expense.mk (some 3) 1 1 200 false, Account.mk 1 1 ((800 : ℚ) + 200) true)) ∧
    ((1000 : ℚ) - 200 = 800 ∧ (800 : ℚ) + 200 = 1000) :=
  ⟨⟨rfl, by decide,
    (entry_single_mutation (Expense.mk none 1 1 200 true) (Income.mk none 1 1 50 true)
      (Account.mk 1 1 1000 true) 0 3).1 rfl (by decide)⟩,
   ⟨rfl,
    (entry_single_mutation (Expense.mk none 1 1 200 true) (Income.mk none 1 1 50 true)
      (Account.mk 1 1 800 true) 0 4).2.1 rfl⟩,
   ⟨rfl,
    (entry_single_mutation (Expense.mk (some 3) 1 1 200 true) (Income.mk none 1 1 50 true)
      (Account.mk 1 1 800 true) 3 9).2.2.1 rfl,
    ((entry_single_mutation (Expense.mk (some 3) 1 1 200 true) (Income.mk none 1 1 50 true)
      (Account.mk 1 1 800 true) 3 9).2.2.2.2 rfl).1⟩,
   by norm_num⟩

/-- Claim C6: editing an expense's amount adjusts the account by exactly the
difference between the new and the old amount — a positive difference is
withdrawn (failing with `InsufficientFunds` when the balance cannot cover
it), a negative one is deposited back — never by the full new amount; in
particular an expense of 100 against a balance of 500 edited to 150 yields
450, and edited back to 100 yields 500 again. -/
theorem edit_expense_delta (e : Expense) (acc : Account) (newAmount : ℚ) (k : Nat)
    (hpk : e.pk = some k) :
    (∀ e' acc', edit_expense e acc newAmount = .ok (e', acc') →
      acc'.balance = acc.balance - (newAmount - e.amount) ∧
      e'.amount = newAmount ∧ e'.pk = some k) ∧
    (e.amount < newAmount → acc.balance < newAmount - e.amount →
      edit_expense e acc newAmount = .error .insufficientFunds) ∧
    (edit_expense (Expense.mk (some 1) 1 1 100 true) (Account.mk 1 1 500 true) 150 =
      .ok (Expense.mk (some 1) 1 1 150 true, Account.mk 1 1 450 true)) ∧
    (edit_expense (Expense.mk (some 1) 1 1 150 true) (Account.mk 1 1 450 true) 100 =
      .ok (Expense.mk (some 1) 1 1 100 true, Account.mk 1 1 500 true)) := by
  refine ⟨?_, ?_, ?_, ?_⟩
  · intro e' acc' h
    by_cases h1 : e.amount < newAmount
    · by_cases hw : acc.balance < newAmount - e.amount
      · simp [edit_expense, h1, Account.withdraw, hw] at h
      · simp only [edit_expense, h1, if_true, Account.withdraw, hw, if_neg, if_false,
          Expense.save, hpk, Except.ok.injEq, Prod.mk.injEq] at h
        obtain ⟨h1', h2'⟩ := h
        subst h1'
        subst h2'
        refine ⟨rfl, rfl, by simp [hpk]⟩
    · by_cases h2 : newAmount < e.amount
      · simp only [edit_expense, h1, if_false, h2, if_true, Account.deposit,
          Expense.save, hpk, Except.ok.injEq, Prod.mk.injEq] at h
        obtain ⟨h1', h2'⟩ := h
        subst h1'
        subst h2'
        refine ⟨by show acc.balance + (e.amount - newAmount) = _; ring, rfl, by simp [hpk]⟩
      · have heq : newAmount = e.amount := le_antisymm (not_lt.mp h1) (not_lt.mp h2)
        simp only [edit_expense, h1, h2, if_false, Expense.save, hpk,
          Except.ok.injEq, Prod.mk.injEq] at h
        obtain ⟨h1', h2'⟩ := h
        subst h1'
        subst h2'
        refine ⟨by rw [heq]; ring, rfl, by simp [hpk]⟩
  · intro h1 hw
    simp [edit_expense, h1, Account.withdraw, hw]
  · norm_num [edit_expense, Expense.save, Account.withdraw, Account.deposit]
  · norm_num [edit_expense, Expense.save, Account.withdraw, Account.deposit]

/-- Witness for C6 at the spec's concrete example (expense 100, balance
500, edit to 150). -/
theorem edit_expense_delta_witness :
    (Expense.mk (some 1) 1 1 100 true).pk = some 1 ∧
    ((∀ e' acc',
        edit_expense (Expense.mk (some 1) 1 1 100 true) (Account.mk 1 1 500 true) 150 =
          .ok (e', acc') →
        acc'.balance = (Account.mk 1 1 500 true).balance -
          (150 - (Expense.mk (some 1) 1 1 100 true).amount) ∧
        e'.amount = 150 ∧ e'.pk = some 1) ∧
     ((Expense.mk (some 1) 1 1 100 true).amount < 150 →
       (Account.mk 1 1 500 true).balance < 150 - (Expense.mk (some 1) 1 1 100 true).amount →
       edit_expense (Expense.mk (some 1) 1 1 100 true) (Account.mk 1 1 500 true) 150 =
         .error .insufficientFunds) ∧
     (edit_expense (Expense.mk (some 1) 1 1 100 true) (Account.mk 1 1 500 true) 150 =
       .ok (Expense.mk (some 1) 1 1 150 true, Account.mk 1 1 450 true)) ∧
     (edit_expense (Expense.mk (some 1) 1 1 150 true) (Account.mk 1 1 450 true) 100 =
       .ok (Expense.mk (some 1) 1 1 100 true, Account.mk 1 1 500 true))) :=
  ⟨rfl, edit_expense_delta (Expense.mk (some 1) 1 1 100 true)
    (Account.mk 1 1 500 true) 150 1 rfl⟩

/-- Claim C7: a transfer whose source and destination coincide fails with
`SameAccount` before any mutation, and for distinct accounts the operation
is atomic — when the withdrawal fails with `InsufficientFunds` no deposit
happens, no `Transfer` row is written, and the visible store is exactly
the pre-state. -/
theorem transfer_atomic (st : Store) (user fromId toId : Nat) (amt : ℚ)
    (fromAcc toAcc : Account)
    (hfrom : getObjectOr404 st.accounts fromId user = some fromAcc)
    (hto : getObjectOr404 st.accounts toId user = some toAcc) :
    (fromAcc.id = toAcc.id →
      transfer_money st user fromId toId amt = .error .sameAccount ∧
      runAtomic st (transfer_money st user fromId toId amt) = st) ∧
    (fromAcc.id ≠ toAcc.id → fromAcc.balance < amt →
      transfer_money st user fromId toId amt = .error .insufficientFunds ∧
      runAtomic st (transfer_money st user fromId toId amt) = st) := by
  constructor
  · intro heq
    have h : transfer_money st user fromId toId amt = .error .sameAccount := by
      simp [transfer_money, hfrom, hto, heq]
    exact ⟨h, by simp [runAtomic, h]⟩
  · intro hne hw
    have h : transfer_money st user fromId toId amt = .error .insufficientFunds := by
      simp [transfer_money, hfrom, hto, hne, Transfer.save, Account.withdraw, hw]
    exact ⟨h, by simp [runAtomic, h]⟩

/-- Witness for C7: with accounts 1 (balance 100) and 2 (balance 50) owned
by user 1, both the same-account and the insufficient-funds statements are
available for a requested amount of 400. -/
theorem transfer_atomic_witness :
    (getObjectOr404 [Account.mk 1 1 100 true, Account.mk 2 1 50 true] 1 1 =
       some (Account.mk 1 1 100 true) ∧
     getObjectOr404 [Account.mk 1 1 100 true, Account.mk 2 1 50 true] 2 1 =
       some (Account.mk 2 1 50 true)) ∧
    (((Account.mk 1 1 100 true).id = (Account.mk 2 1 50 true).id →
      transfer_money (Store.mk [Account.mk 1 1 100 true, Account.mk 2 1 50 true] []) 1 1 2 400 =
        .error .sameAccount ∧
      runAtomic (Store.mk [Account.mk 1 1 100 true, Account.mk 2 1 50 true] [])
        (transfer_money (Store.mk [Account.mk 1 1 100 true, Account.mk 2 1 50 true] []) 1 1 2 400) =
        Store.mk [Account.mk 1 1 100 true, Account.mk 2 1 50 true] []) ∧
     ((Account.mk 1 1 100 true).id ≠ (Account.mk 2 1 50 true).id →
      (Account.mk 1 1 100 true).balance < 400 →
      transfer_money (Store.mk [Account.mk 1 1 100 true, Account.mk 2 1 50 true] []) 1 1 2 400 =
        .error .insufficientFunds ∧
      runAtomic (Store.mk [Account.mk 1 1 100 true, Account.mk 2 1 50 true] [])
        (transfer_money (Store.mk [Account.mk 1 1 100 true, Account.mk 2 1 50 true] []) 1 1 2 400) =
        Store.mk [Account.mk 1 1 100 true, Account.mk 2 1 50 true] [])) :=
  ⟨⟨by decide, by decide⟩,
   transfer_atomic (Store.mk [Account.mk 1 1 100 true, Account.mk 2 1 50 true] [])
     1 1 2 400 (Account.mk 1 1 100 true) (Account.mk 2 1 50 true) (by decide) (by decide)⟩

/-- Claim C8: creating a debt sets `remaining = initial` and performs
exactly one balance mutation on the settling account — a payable debt
deposits the initial amount, a receivable one withdraws it, failing with
`InsufficientFunds` (and writing no `Debt` row) when the balance cannot
cover it. -/
theorem debt_creation (d : Debt) (acc : Account) (newPk : Nat)
    (hpk : d.pk = none) :
    (d.debtType = .payable →
      Debt.save d acc newPk =
        .ok ({ d with remainingAmount := d.initialAmount, pk := some newPk },
             { acc with balance := acc.balance + d.initialAmount })) ∧
    (d.debtType = .receivable → d.initialAmount ≤ acc.balance →
      Debt.save d acc newPk =
        .ok ({ d with remainingAmount := d.initialAmount, pk := some newPk },
             { acc with balance := acc.balance - d.initialAmount })) ∧
    (d.debtType = .receivable → acc.balance < d.initialAmount →
      Debt.save d acc newPk = .error .insufficientFunds ∧
      runAtomic (d, acc) (Debt.save d acc newPk) = (d, acc)) := by
  refine ⟨?_, ?_, ?_⟩
  · intro hdt
    simp [Debt.save, hpk, hdt, Account.deposit]
  · intro hdt hle
    simp [Debt.save, hpk, hdt, Account.withdraw, not_lt.mpr hle]
  · intro hdt hw
    have h : Debt.save d acc newPk = .error .insufficientFunds := by
      simp [Debt.save, hpk, hdt, Account.withdraw, hw]
    exact ⟨h, by simp [runAtomic, h]⟩

/-- Witness for C8 on the spec's scenario 3: a payable debt of 1000 against
a balance of 0 yields balance 1000 and remaining 1000. -/
theorem debt_creation_witness :
    (Debt.mk none 1 1 1000 0 .payable 1 false).pk = none ∧
    (((Debt.mk none 1 1 1000 0 .payable 1 false).debtType = .payable →
      Debt.save (Debt.mk none 1 1 1000 0 .payable 1 false) (Account.mk 1 1 0 true) 7 =
        .ok (Debt.mk (some 7) 1 1 1000 1000 .payable 1 false,
             Account.mk 1 1 ((0 : ℚ) + 1000) true)) ∧
     ((Debt.mk none 1 1 1000 0 .payable 1 false).debtType = .receivable →
      (1000 : ℚ) ≤ (Account.mk 1 1 0 true).balance →
      Debt.save (Debt.mk none 1 1 1000 0 .payable 1 false) (Account.mk 1 1 0 true) 7 =
        .ok (Debt.mk (some 7) 1 1 1000 1000 .payable 1 false,
             Account.mk 1 1 ((0 : ℚ) - 1000) true)) ∧
     ((Debt.mk none 1 1 1000 0 .payable 1 false).debtType = .receivable →
      (Account.mk 1 1 0 true).balance < 1000 →
      Debt.save (Debt.mk none 1 1 1000 0 .payable 1 false) (Account.mk 1 1 0 true) 7 =
        .error .insufficientFunds ∧
      runAtomic (Debt.mk none 1 1 1000 0 .payable 1 false, Account.mk 1 1 0 true)
        (Debt.save (Debt.mk none 1 1 1000 0 .payable 1 false) (Account.mk 1 1 0 true) 7) =
        (Debt.mk none 1 1 1000 0 .payable 1 false, Account.mk 1 1 0 true))) :=
  ⟨rfl, debt_creation (Debt.mk none 1 1 1000 0 .payable 1 false)
    (Account.mk 1 1 0 true) 7 rfl⟩

/-- Claim C9 concerns the Ownership Guard.  The `process_transfer` view
creates the `Transfer` row directly from the raw posted account ids with
no ownership check, so a user can move money out of and into accounts of
another owner: acting user 10 transfers 30 from account 1 (owner 10) into
account 2 — owned by user 20 — and the operation succeeds instead of
failing with `Forbidden`, mutating the foreign balance from 50 to 80. -/
theorem process_transfer_ignores_ownership :
    (Account.mk 2 20 50 true).user ≠ 10 ∧
    getAccount [Account.mk 1 10 100 true, Account.mk 2 20 50 true] 2 =
      some (Account.mk 2 20 50 true) ∧
    process_transfer
      (Store.mk [Account.mk 1 10 100 true, Account.mk 2 20 50 true] []) 10 1 2 30 =
      .ok (Store.mk [Account.mk 1 10 70 true, Account.mk 2 20 80 true]
        [Transfer.mk 10 1 2 30]) := by
  refine ⟨by decide, by decide, ?_⟩
  norm_num [process_transfer, getAccount, Transfer.save, Account.withdraw,
    Account.deposit, updateAccount, List.find?]

/-- Claim C10: `delete_expense` has no precondition on the active flag and
is not idempotent — every request deposits the expense amount back into
the account, so deactivating the same expense twice (the second time it is
already inactive) raises the balance by twice the amount. -/
theorem delete_expense_double_refund (e : Expense) (acc : Account) (k : Nat)
    (hpk : e.pk = some k) :
    delete_expense e acc =
      .ok ({ e with isActive := false },
           { acc with balance := acc.balance + e.amount }) ∧
    delete_expense { e with isActive := false }
        { acc with balance := acc.balance + e.amount } =
      .ok ({ e with isActive := false },
           { acc with balance := acc.balance + e.amount + e.amount }) ∧
    acc.balance + e.amount + e.amount = acc.balance + 2 * e.amount := by
  refine ⟨?_, ?_, by ring⟩
  · simp [delete_expense, Expense.save, hpk, Account.deposit]
  · simp [delete_expense, Expense.save, hpk, Account.deposit]

/-- Witness for C10: an already-inactive expense of 200 deactivated twice
against a balance of 500 ends at 500 + 200 + 200. -/
theorem delete_expense_double_refund_witness :
    (Expense.mk (some 1) 1 1 200 false).pk = some 1 ∧
    (delete_expense (Expense.mk (some 1) 1 1 200 false) (Account.mk 1 1 500 true) =
      .ok (Expense.mk (some 1) 1 1 200 false,
           Account.mk 1 1 ((500 : ℚ) + 200) true) ∧
     delete_expense (Expense.mk (some 1) 1 1 200 false)
         (Account.mk 1 1 ((500 : ℚ) + 200) true) =
       .ok (Expense.mk (some 1) 1 1 200 false,
            Account.mk 1 1 ((500 : ℚ) + 200 + 200) true) ∧
     (500 : ℚ) + 200 + 200 = 500 + 2 * 200) :=
  ⟨rfl, delete_expense_double_refund (Expense.mk (some 1) 1 1 200 false)
    (Account.mk 1 1 500 true) 1 rfl⟩

end Kharcha
